import Mathlib

/-!
Verification development for the pg-profiler repository.

This file shallowly embeds the analysis-and-reporting engine of
`scripts/analyze_data.py` (functions `analyze_query_patterns`,
`analyze_table_sizes` and `generate_report`) and proves properties of the
embedding.

Embedding conventions:
* A pandas `DataFrame` loaded from a CSV snapshot becomes a typed Lean
  structure or list of row structures; numeric columns become `ℚ` or `Int`.
* The set of snapshot files on disk becomes an `Env`: for each metric
  category, `none` models "no file matching the glob", `some (.error e)`
  models an exception (with message `e`) raised inside that section's
  `try` block (a CSV that fails to parse, a missing column, a failing
  numeric access), and `some (.ok frame)` models a cleanly parsed frame.
  The latest-by-timestamp file selection is outside the model: the `Env`
  holds the already-selected latest snapshot per category.
* Each `f.write(...)` call of the Python becomes one `Frag` value in the
  output list.  Writes of fixed or string-valued text become `Frag.text`;
  writes whose text is produced by formatting structured data
  (`DataFrame.to_markdown`, f-strings interpolating numbers) become
  dedicated constructors carrying the unformatted values, so that the
  decision logic (selection, ordering, truncation, thresholding) is kept
  exactly and only the final decimal/markdown printing is abstracted.
* Python's `datetime.now()` timestamp is passed in as the `ts` argument.
-/

/-- Contiguous-substring test on character lists: some rotation point `i`
has `pat` as the prefix of `hay.drop i`.  Used to model Python's `in`
operator on strings. -/
def subListAt (hay pat : List Char) : Bool :=
  (List.range (hay.length + 1)).any fun i =>
    ((hay.drop i).take pat.length) == pat

/-- Python's `pat in hay` on strings: `pat` occurs contiguously in `hay`. -/
def strContains (hay pat : String) : Bool :=
  subListAt hay.toList pat.toList

/-- Python's `str.upper()`, character-wise (ASCII, as in the source's SQL
text). -/
def pyUpper (s : String) : String := ⟨s.data.map Char.toUpper⟩

/-- Python's `str.lower()`, character-wise. -/
def pyLower (s : String) : String := ⟨s.data.map Char.toLower⟩

/-- Python's `s[:n]` on strings: the first `n` characters. -/
def pyTake (s : String) (n : Nat) : String := ⟨s.data.take n⟩

/-- Exact division on `ℚ`, written through `Rat.divInt` so that it reduces
by kernel computation (`Rat.div` is irreducible); `qdiv_eq` shows it is
field division.  Models Python's `/`. -/
def qdiv (a b : ℚ) : ℚ := Rat.divInt (a.num * b.den) (a.den * b.num)

theorem qdiv_eq (a b : ℚ) : qdiv a b = a / b := by
  rcases eq_or_ne b 0 with rfl | hb
  · simp [qdiv]
  · have hbn : b.num ≠ 0 := by simpa [Rat.num_eq_zero] using hb
    have had : (a.den : ℚ) ≠ 0 := by positivity
    have hbd : (b.den : ℚ) ≠ 0 := by positivity
    have hbn' : (b.num : ℚ) ≠ 0 := by exact_mod_cast hbn
    have ha : (a.num : ℚ) = a * a.den := (div_eq_iff had).1 (Rat.num_div_den a)
    have hbq : (b.num : ℚ) = b * b.den := (div_eq_iff hbd).1 (Rat.num_div_den b)
    rw [qdiv, Rat.divInt_eq_div]
    push_cast
    rw [div_eq_div_iff (mul_ne_zero had hbn') hb, ha, hbq]
    ring

/-- One row of a `query_stats_*.csv` snapshot (columns as written by the
collector and read by `analyze_data.py`; the unused `avg_seconds` column is
omitted). -/
structure QueryRow where
  query : String
  calls : Int
  total_ms : ℚ
  avg_ms : ℚ
  min_ms : ℚ
  max_ms : ℚ
deriving DecidableEq, Repr

/-- Message of the SELECT * rule (source line 18). -/
def msgSelectStar : String :=
  "⚠️ **Avoid SELECT ***: Specify columns explicitly to reduce network traffic and improve query plan caching."

/-- Message of the leading-wildcard LIKE rule (source line 21). -/
def msgLeadingWildcard : String :=
  "🔍 **Leading Wildcard LIKE**: Using LIKE with a leading wildcard can't use indexes. Consider full-text search or alternative patterns."

/-- Message of the ORDER BY without LIMIT rule (source line 24). -/
def msgOrderByNoLimit : String :=
  "⏱️ **Missing LIMIT with ORDER BY**: Consider adding LIMIT to avoid unnecessary sorting of large result sets."

/-- Message of the implicit-JOIN rule (source line 27). -/
def msgImplicitJoin : String :=
  "🔗 **Implicit JOIN**: Use explicit JOIN syntax with ON clause for better readability and performance."

/-- Message of the OR-conditions rule (source line 30). -/
def msgOrConditions : String :=
  "🔎 **OR conditions**: OR conditions can prevent index usage. Consider rewriting with UNION ALL."

/-- Message of the no-WHERE-clause rule (source line 33). -/
def msgNoWhere : String :=
  "🐌 **No WHERE clause**: Full table scans detected. Consider adding appropriate WHERE conditions."

/-- The double-quoted pattern literal of source line 20: `LIKE "%term%"`. -/
def likeDoubleQuoted : String := "LIKE \"%term%\""

/-- The single-quoted pattern literal of source line 20: `LIKE '%term%'`. -/
def likeSingleQuoted : String := "LIKE '%term%'"

/-- The `analysis` list built for one row by the loop body of
`analyze_query_patterns` (source lines 13-33): each of the six `if`
statements appends its message when its condition holds.  Python's
`X in s` is `strContains s X`; `row['calls'] > 10` and
`row['avg_ms'] > 100` are the numeric comparisons; the `'calls' in row`
test of line 32 is always true in this typed model, where every row has a
`calls` field. -/
def rowAnalysis (r : QueryRow) : List String :=
  (if strContains (pyUpper r.query) "SELECT *" = true then [msgSelectStar] else []) ++
  (if (strContains r.query likeDoubleQuoted || strContains r.query likeSingleQuoted) = true
    then [msgLeadingWildcard] else []) ++
  (if strContains (pyUpper r.query) "ORDER BY" = true ∧
      strContains (pyUpper r.query) "LIMIT" = false ∧ 10 < r.calls
    then [msgOrderByNoLimit] else []) ++
  (if strContains (pyUpper r.query) "JOIN" = true ∧ strContains (pyUpper r.query) "ON" = false
    then [msgImplicitJoin] else []) ++
  (if strContains (pyUpper r.query) "OR" = true ∧
      strContains (pyUpper r.query) "INDEX" = false ∧
      strContains (pyUpper r.query) "UNION" = false
    then [msgOrConditions] else []) ++
  (if 100 < r.avg_ms ∧ strContains (pyUpper r.query) "WHERE" = false ∧
      strContains (pyUpper r.query) "JOIN" = false ∧ 10 < r.calls
    then [msgNoWhere] else [])

/-- Python `query[:200] + ('...' if len(query) > 200 else '')` (source
line 37). -/
def truncate200 (q : String) : String :=
  if q.length > 200 then pyTake q 200 ++ "..." else q

/-- One entry of the `suggestions` list built by `analyze_query_patterns`
(source lines 38-43).  The Python stores `avg_ms` as the string
`f"{...:.2f}"` and `suggestions` as the lines joined with `"\n"` after
prefixing `"  - "`; here the unformatted value and the message list are
carried. -/
structure Suggestion where
  query : String
  calls : Int
  avg_ms : ℚ
  suggestions : List String
deriving DecidableEq, Repr

/-- `analyze_query_patterns` (source lines 8-45): walk the rows in snapshot
order; a row whose `analysis` list is non-empty contributes one suggestion
entry, in place. -/
def analyze_query_patterns : List QueryRow → List Suggestion
  | [] => []
  | r :: rs =>
    if (rowAnalysis r).isEmpty then analyze_query_patterns rs
    else ⟨truncate200 r.query, r.calls, r.avg_ms, rowAnalysis r⟩ :: analyze_query_patterns rs

/-- One row of a `table_sizes_*.csv` snapshot as accessed by
`analyze_data.py`: `total_size_bytes` feeds the dedicated megabyte column
(source line 147), `indexes` and `index_count` feed `analyze_table_sizes`. -/
structure TableRow where
  schema_name : String
  table_name : String
  total_size_bytes : Int
  indexes : String
  index_count : Int
deriving DecidableEq, Repr

/-- A parsed table-sizes frame.  `hasIndexCount` models the
`'index_count' in df_tables.columns` test of source line 64. -/
structure TableFrame where
  rows : List TableRow
  hasIndexCount : Bool
deriving DecidableEq, Repr

/-- The `table_size_mb` column added at source line 147:
`total_size_bytes / (1024 * 1024)`. -/
def tableSizeMb (r : TableRow) : ℚ :=
  Rat.divInt r.total_size_bytes (1024 * 1024)

theorem tableSizeMb_eq (r : TableRow) :
    tableSizeMb r = (r.total_size_bytes : ℚ) / (1024 * 1024) := by
  rw [tableSizeMb, Rat.divInt_eq_div]
  norm_num

/-- A finding of `analyze_table_sizes`.  The Python builds an f-string; the
interpolated values (schema, table, size in MB or index count) are carried
unformatted. -/
inductive TableFinding where
  | missingPkey (schema_name table_name : String) (size_mb : ℚ)
  | manyIndexes (schema_name table_name : String) (index_count : Int)
deriving DecidableEq, Repr

/-- `analyze_table_sizes` (source lines 47-72): empty frame yields no
findings; otherwise first the missing-primary-key findings over the rows
with `table_size_mb > 100` whose `indexes` string lacks `'pkey'`
(lowercased), then, when the `index_count` column exists, the
excess-indexes findings over rows with `index_count > 5`. -/
def analyze_table_sizes (tf : TableFrame) : List TableFinding :=
  if tf.rows.isEmpty then []
  else
    ((tf.rows.filter fun r => 100 < tableSizeMb r).filterMap fun r =>
      if strContains (pyLower r.indexes) "pkey" = true then none
      else some (.missingPkey r.schema_name r.table_name (tableSizeMb r))) ++
    (if tf.hasIndexCount then
      (tf.rows.filter fun r => 5 < r.index_count).map fun r =>
        .manyIndexes r.schema_name r.table_name r.index_count
    else [])

/-- The `db_stats_*.csv` frame as accessed by `generate_report`
(source lines 173-188): its row count (for the `df.empty` test) and, for
each of the two optionally present columns, the value at `.iloc[0]` when
the column exists. -/
structure DbStatsFrame where
  nrows : Nat
  cache_hit_ratio : Option ℚ
  database_size_mb : Option ℚ
deriving DecidableEq, Repr

/-- One row of a `connection_info_*.csv` snapshot as accessed by
`generate_report`: the `state` string and the `query_start` timestamp,
modelled as an already-parsed totally ordered value (the Python parses the
string with `pd.to_datetime` before sorting). -/
structure ConnRow where
  state : String
  query_start : Nat
deriving DecidableEq, Repr

/-- One row of a `lock_info_*.csv` snapshot: only the `granted` flag is
inspected; the remaining display-only columns are not modelled. -/
structure LockRow where
  granted : Bool
deriving DecidableEq, Repr

/-- One report fragment: each constructor stands for one `f.write(...)`
call of `generate_report`.  `text` carries literally written text (fixed
strings, or strings holding caught exception messages); the other
constructors carry the structured data that the Python formats with
`to_markdown` or f-string number formatting. -/
inductive Frag where
  | text (s : String)
  | queryTable (rows : List QueryRow)
  | querySummary (count : Nat) (totalSec : ℚ) (avgMs : ℚ) (maxMs : ℚ)
  | querySug (i : Nat) (s : Suggestion)
  | largestTables (rows : List (String × String × ℚ))
  | tableSug (s : TableFinding)
  | cacheRatioLine (r : ℚ)
  | dbSizeLine (r : ℚ)
  | bgTable (rows : List (List String))
  | connCounts (active idle idleInTx : Nat)
  | connTable (rows : List ConnRow)
  | lockCounts (total granted waiting : Nat)
  | lockTable (rows : List LockRow)
  | rawSizeTable (rows : List TableRow)
deriving DecidableEq, Repr

/-- The configuration read by `generate_report`:
`int(config['analysis'].get('top_n_queries', 10))`. -/
structure Config where
  top_n_queries : Nat
deriving DecidableEq, Repr

/-- The snapshot files available to one run: for each metric category,
`none` = no file matches the category's glob; `some (.error e)` = an
exception with message `e` is raised inside the section's `try` block
(unparsable CSV, missing column, failing access); `some (.ok frame)` = a
cleanly processed frame.  Sections 3 (Table Analysis) and 5 (Table and
Index Sizes) read the same `table_sizes_*.csv` file, hence share the
`tables` field. -/
structure Env where
  query : Option (Except String (List QueryRow))
  tables : Option (Except String TableFrame)
  db : Option (Except String DbStatsFrame)
  bg : Option (Except String (List (List String)))
  conn : Option (Except String (List ConnRow))
  lock : Option (Except String (List LockRow))

/-- Python `x[:100] + '...' if len(x) > 100 else x` (source line 101). -/
def truncate100 (q : String) : String :=
  if q.length > 100 then pyTake q 100 ++ "..." else q

/-- The `display_queries` row transformation of source lines 99-102: the
first `top_n` rows with the query text truncated for display. -/
def displayRow (r : QueryRow) : QueryRow :=
  { r with query := truncate100 r.query }

/-- Sum of the `total_ms` column. -/
def sumTotalMs (df : List QueryRow) : ℚ := (df.map QueryRow.total_ms).sum

/-- Mean of the `avg_ms` column (`df['avg_ms'].mean()`). -/
def meanAvgMs (df : List QueryRow) : ℚ := qdiv (df.map QueryRow.avg_ms).sum df.length

/-- Maximum of the `max_ms` column (`df['max_ms'].max()`); only evaluated
on non-empty frames. -/
def maxMaxMs (df : List QueryRow) : ℚ :=
  match df with
  | [] => 0
  | r :: rs => rs.foldl (fun a x => max a x.max_ms) r.max_ms

/-- Section \"1. Query Performance Analysis\" and the nested section
\"2. Optimization Recommendations\" (source lines 86-135).  The `## 1.`
heading is written before the `try`; everything from `pd.read_csv` through
the recommendations is inside it, so a failure replaces all of it with the
inline error note, and the whole `## 2.` block exists only on the
successful, non-empty path. -/
def section1 (cfg : Config) (q : Option (Except String (List QueryRow))) : List Frag :=
  match q with
  | none => [.text "## 1. Query Performance Analysis\n\nNo query statistics data found.\n\n"]
  | some (.error e) =>
    [.text "## 1. Query Performance Analysis\n\n",
     .text ("Error processing query stats: " ++ e ++ "\n\n")]
  | some (.ok df) =>
    .text "## 1. Query Performance Analysis\n\n" ::
    if df.isEmpty then
      [.text "No query statistics data found or pg_stat_statements is not enabled/populated.\n\n"]
    else
      [.text ("### Top " ++ toString cfg.top_n_queries ++ " Queries by Total Execution Time\n\n"),
       .queryTable ((df.take cfg.top_n_queries).map displayRow),
       .text "\n\n",
       .text "### Query Performance Summary\n\n",
       .querySummary df.length (qdiv (sumTotalMs df) 1000) (meanAvgMs df) (maxMaxMs df),
       .text "## 2. Optimization Recommendations\n\n"] ++
      (let qsugs := analyze_query_patterns df
       if qsugs.isEmpty then
         [.text "No obvious query optimization opportunities detected.\n\n"]
       else
         .text "### Query Optimization Opportunities\n\n" ::
         .text "The following queries might benefit from optimization:\n\n" ::
         (qsugs.take 10).enum.map fun p => .querySug (p.1 + 1) p.2)

/-- The stable descending top-`n` selection `df.nlargest(n, key)`
(pandas `keep='first'`): stable sort by descending key, then take `n`. -/
def nlargestBy (n : Nat) (key : TableRow → ℚ) (l : List TableRow) : List TableRow :=
  (l.insertionSort fun a b => key b ≤ key a).take n

/-- Section \"3. Table Analysis\" (source lines 137-165): heading first,
then the guarded body; on success the byte-derived megabyte column is
added, the 10 largest tables are rendered and up to 5 table findings are
appended. -/
def section3T (t : Option (Except String TableFrame)) : List Frag :=
  .text "## 3. Table Analysis\n\n" ::
  match t with
  | none => [.text "No table size data files found.\n"]
  | some (.error e) => [.text ("Error processing table sizes: " ++ e ++ "\n")]
  | some (.ok tf) =>
    if tf.rows.isEmpty then [.text "No table size data available.\n"]
    else
      [.text "### Largest Tables\n\n",
       .largestTables ((nlargestBy 10 tableSizeMb tf.rows).map fun r =>
         (r.schema_name, r.table_name, tableSizeMb r))] ++
      (let tsugs := analyze_table_sizes tf
       if tsugs.isEmpty then []
       else .text "\n### Table Optimization Opportunities\n\n" ::
         (tsugs.take 5).map .tableSug)

/-- The advisory written when the cache hit ratio is below the 90 threshold
(source line 181). -/
def lowCacheNote : String :=
  "  - ⚠️ **Low cache hit ratio**. Consider increasing shared_buffers if you have available RAM.\n"

/-- The marker written when the cache hit ratio is 90 or above (source
line 183). -/
def goodCacheNote : String := "  - ✅ Good cache hit ratio.\n"

/-- The database-statistics half of section \"4. Resource Usage Analysis\"
(source lines 167-197).  The heading is unconditional; when no file
matches, the `if` has no `else` and nothing further is written; when a
file matches, the final `f.write("No database statistics data found...")`
of source line 197 is mis-indented inside the `if` after the
`try`/`except`, so it runs on every path through the section. -/
def section4R (d : Option (Except String DbStatsFrame)) : List Frag :=
  .text "\n## 4. Resource Usage Analysis\n\n" ::
  match d with
  | none => []
  | some r =>
    (match r with
     | .error e => [.text ("Error processing DB stats: " ++ e ++ "\n\n")]
     | .ok df =>
       if df.nrows = 0 then [.text "No database statistics data found.\n\n"]
       else
         .text "### Database Statistics\n\n" ::
         (match df.cache_hit_ratio with
          | some ratio =>
            .cacheRatioLine ratio ::
            (if ratio < 90 then [.text lowCacheNote] else [.text goodCacheNote])
          | none => []) ++
         (match df.database_size_mb with
          | some v => [.dbSizeLine v]
          | none => []) ++
         [.text "\n", .text "\n\n"]) ++
    [.text "No database statistics data found.\n\n"]

/-- The background-writer half of section 4 (source lines 199-213). -/
def section4B (b : Option (Except String (List (List String)))) : List Frag :=
  match b with
  | none => [.text "No background writer statistics data found.\n\n"]
  | some (.error e) => [.text ("Error processing BGWriter stats: " ++ e ++ "\n\n")]
  | some (.ok rows) =>
    if rows.isEmpty then [.text "No background writer statistics data found.\n\n"]
    else [.text "### Background Writer Statistics\n\n", .bgTable rows, .text "\n\n"]

/-- Section \"3. Connection Information\" (source lines 216-237; the source
reuses heading number 3).  Counts by state, then the 10 active connections
with the earliest `query_start`, ascending.  The source sorts with the
pandas default (unstable) sort; ties are modelled with a stable sort. -/
def sectionConn (c : Option (Except String (List ConnRow))) : List Frag :=
  .text "## 3. Connection Information\n\n" ::
  match c with
  | none => [.text "No connection information found.\n\n"]
  | some (.error e) => [.text ("Error processing connection info: " ++ e ++ "\n\n")]
  | some (.ok rows) =>
    if rows.isEmpty then [.text "No connection information found.\n\n"]
    else
      [.connCounts (rows.countP fun r => r.state == "active")
                   (rows.countP fun r => r.state == "idle")
                   (rows.countP fun r => r.state == "idle in transaction"),
       .text "Top 10 Active Connections (by query start time):\n\n",
       .connTable (((rows.filter fun r => r.state == "active").insertionSort
         fun a b => a.query_start ≤ b.query_start).take 10),
       .text "\n\n"]

/-- Section \"4. Lock Information\" (source lines 239-261; the source
reuses heading number 4). -/
def sectionLock (k : Option (Except String (List LockRow))) : List Frag :=
  .text "## 4. Lock Information\n\n" ::
  match k with
  | none => [.text "No lock information found.\n\n"]
  | some (.error e) => [.text ("Error processing lock info: " ++ e ++ "\n\n")]
  | some (.ok rows) =>
    if rows.isEmpty then [.text "No lock information found.\n\n"]
    else
      .lockCounts rows.length (rows.countP LockRow.granted)
        (rows.countP fun r => !r.granted) ::
      (if (rows.filter fun r => !r.granted).isEmpty then
        [.text "No waiting locks identified.\n\n"]
      else
        [.text "Waiting Locks:\n\n",
         .lockTable (rows.filter fun r => !r.granted),
         .text "\n\n"])

/-- Section \"5. Table and Index Sizes\" (source lines 263-284): re-reads
the same `table_sizes_*.csv` and displays the first 10 rows verbatim,
without any ranking (the source comments note that the pretty-printed size
strings are not numerically sortable and chooses to just display). -/
def section5 (t : Option (Except String TableFrame)) : List Frag :=
  .text "## 5. Table and Index Sizes\n\n" ::
  match t with
  | none => [.text "No table size information found.\n\n"]
  | some (.error e) => [.text ("Error processing table sizes: " ++ e ++ "\n\n")]
  | some (.ok tf) =>
    if tf.rows.isEmpty then [.text "No table size information found.\n\n"]
    else [.text "Largest Tables by Total Size:\n\n", .rawSizeTable (tf.rows.take 10), .text "\n\n"]

/-- `generate_report` (source lines 74-287): the header, the seven guarded
regions in source order, and the footer.  `ts` is the
`datetime.now().strftime(...)` timestamp. -/
def generate_report (ts : String) (cfg : Config) (env : Env) : List Frag :=
  [.text ("# PostgreSQL Performance Analysis Report - " ++ ts ++ "\n\n"),
   .text "This report provides performance metrics and optimization suggestions for your PostgreSQL database.\n\n"]
  ++ section1 cfg env.query
  ++ section3T env.tables
  ++ section4R env.db
  ++ section4B env.bg
  ++ sectionConn env.conn
  ++ sectionLock env.lock
  ++ section5 env.tables
  ++ [.text "\n---\n*End of Report*"]

/-! Shared helper lemmas and concrete fixtures.  -/

theorem mem_ite_singleton {c : Prop} [Decidable c] {m a : String} :
    a ∈ (if c then [m] else ([] : List String)) ↔ c ∧ a = m := by
  by_cases h : c <;> simp [h]

/-- The default configuration: `top_n_queries = 10`. -/
def cfgD : Config := ⟨10⟩

/-- The run with zero snapshot files: every category's glob is empty. -/
def emptyEnv : Env := ⟨none, none, none, none, none, none⟩

/-- A row whose query sorts with ORDER BY, has no LIMIT, and was called 11
times. -/
def rowCalls11 : QueryRow := ⟨"SELECT id FROM t ORDER BY id", 11, 5, 1, 1, 1⟩

/-- The same query as `rowCalls11` with a call count of 10. -/
def rowCalls10 : QueryRow := ⟨"SELECT id FROM t ORDER BY id", 10, 5, 1, 1, 1⟩

/-- C5: for a query-statistics row whose upper-cased text contains
`ORDER BY` and does not contain `LIMIT`, the unbounded-sort finding is in
the row's analysis exactly when the call count is strictly greater
than 10. -/
theorem unbounded_sort_iff_calls_gt_ten (r : QueryRow)
    (hob : strContains (pyUpper r.query) "ORDER BY" = true)
    (hnl : strContains (pyUpper r.query) "LIMIT" = false) :
    msgOrderByNoLimit ∈ rowAnalysis r ↔ 10 < r.calls := by
  constructor
  · intro h
    simp only [rowAnalysis, List.append_assoc, List.mem_append, mem_ite_singleton] at h
    rcases h with ⟨_, he⟩ | ⟨_, he⟩ | ⟨h3, _⟩ | ⟨_, he⟩ | ⟨_, he⟩ | ⟨_, he⟩
    · exact absurd he (by decide)
    · exact absurd he (by decide)
    · exact h3.2.2
    · exact absurd he (by decide)
    · exact absurd he (by decide)
    · exact absurd he (by decide)
  · intro h
    simp only [rowAnalysis, List.append_assoc, List.mem_append, mem_ite_singleton]
    exact Or.inr (Or.inr (Or.inl ⟨⟨hob, hnl, h⟩, trivial⟩))

/-- C5 witness: the boundary rows.  `rowCalls11` (calls = 11) gets the
finding, `rowCalls10` (calls = 10) does not. -/
theorem unbounded_sort_iff_calls_gt_ten_witness :
    (strContains (pyUpper rowCalls11.query) "ORDER BY" = true
      ∧ strContains (pyUpper rowCalls11.query) "LIMIT" = false
      ∧ msgOrderByNoLimit ∈ rowAnalysis rowCalls11)
    ∧ msgOrderByNoLimit ∉ rowAnalysis rowCalls10 := by
  refine ⟨⟨by decide, by decide, ?_⟩, fun h => ?_⟩
  · exact (unbounded_sort_iff_calls_gt_ten rowCalls11 (by decide) (by decide)).2 (by decide)
  · exact absurd ((unbounded_sort_iff_calls_gt_ten rowCalls10 (by decide) (by decide)).1 h)
      (by decide)

/-- C6: the unbounded-projection finding is in a row's analysis exactly
when the upper-cased query text contains `SELECT *` — that is, exactly
when the raw text contains `select *` case-insensitively. -/
theorem select_star_iff (r : QueryRow) :
    msgSelectStar ∈ rowAnalysis r ↔ strContains (pyUpper r.query) "SELECT *" = true := by
  constructor
  · intro h
    simp only [rowAnalysis, List.append_assoc, List.mem_append, mem_ite_singleton] at h
    rcases h with ⟨h1, _⟩ | ⟨_, he⟩ | ⟨_, he⟩ | ⟨_, he⟩ | ⟨_, he⟩ | ⟨_, he⟩
    · exact h1
    · exact absurd he (by decide)
    · exact absurd he (by decide)
    · exact absurd he (by decide)
    · exact absurd he (by decide)
    · exact absurd he (by decide)
  · intro h
    simp only [rowAnalysis, List.append_assoc, List.mem_append, mem_ite_singleton]
    exact Or.inl ⟨h, trivial⟩

/-- The leading-wildcard condition as the specification words it: the
query text contains a pattern-match operator (`LIKE`) directly followed by
a quoted leading wildcard literal, matched case-insensitively against the
raw query string.  Stated only for comparison with the source's condition
(source line 20), which matches the two exact literals `likeDoubleQuoted`
and `likeSingleQuoted` case-sensitively. -/
def specLeadingWildcard (q : String) : Bool :=
  strContains (pyUpper q) "LIKE '%" || strContains (pyUpper q) "LIKE \"%"

/-- A row with an ordinary leading-wildcard LIKE pattern that is not the
literal `'%term%'`. -/
def rowWildcardAbc : QueryRow :=
  ⟨"SELECT name FROM users WHERE name LIKE '%abc%'", 1, 1, 1, 1, 1⟩

/-- C7 counterexample: `rowWildcardAbc` contains a pattern-match operator
with a leading wildcard literal (case-insensitively), yet the Rule Engine
does not emit the leading-wildcard finding for it, because the source only
matches the exact literals `LIKE "%term%"` and `LIKE '%term%'`. -/
theorem leading_wildcard_missed :
    specLeadingWildcard rowWildcardAbc.query = true
    ∧ msgLeadingWildcard ∉ rowAnalysis rowWildcardAbc := by
  exact ⟨by decide, by decide⟩

/-- C7 amended: the leading-wildcard finding is emitted for a row exactly
when the raw query text contains one of the two exact, case-sensitive
literals `LIKE "%term%"` or `LIKE '%term%'`. -/
theorem leading_wildcard_iff_term_literal (r : QueryRow) :
    msgLeadingWildcard ∈ rowAnalysis r ↔
      (strContains r.query likeDoubleQuoted || strContains r.query likeSingleQuoted) = true := by
  constructor
  · intro h
    simp only [rowAnalysis, List.append_assoc, List.mem_append, mem_ite_singleton] at h
    rcases h with ⟨_, he⟩ | ⟨h2, _⟩ | ⟨_, he⟩ | ⟨_, he⟩ | ⟨_, he⟩ | ⟨_, he⟩
    · exact absurd he (by decide)
    · exact h2
    · exact absurd he (by decide)
    · exact absurd he (by decide)
    · exact absurd he (by decide)
    · exact absurd he (by decide)
  · intro h
    simp only [rowAnalysis, List.append_assoc, List.mem_append, mem_ite_singleton]
    exact Or.inr (Or.inl ⟨h, trivial⟩)

/-- C9: the Rule Engine preserves snapshot order and attaches every
triggered finding to its row: the emitted entries' query texts form a
sublist (order-preserving selection, no re-sorting) of the rows' truncated
query texts in snapshot order, and every row with a non-empty analysis has
an emitted entry carrying its full analysis list, not just the first
finding. -/
theorem findings_in_row_order (df : List QueryRow) :
    ((analyze_query_patterns df).map Suggestion.query).Sublist
        (df.map fun r => truncate200 r.query)
    ∧ ∀ r ∈ df, rowAnalysis r ≠ [] →
        ∃ s ∈ analyze_query_patterns df,
          s.query = truncate200 r.query ∧ s.calls = r.calls ∧ s.suggestions = rowAnalysis r := by
  induction df with
  | nil => exact ⟨by simp [analyze_query_patterns], by simp⟩
  | cons a l ih =>
    by_cases h : (rowAnalysis a).isEmpty
    · have hrw : analyze_query_patterns (a :: l) = analyze_query_patterns l := by
        simp [analyze_query_patterns, h]
      refine ⟨?_, ?_⟩
      · rw [hrw, List.map_cons]
        exact ih.1.cons (truncate200 a.query)
      · intro r hr hne
        rcases List.mem_cons.1 hr with rfl | hr'
        · exact absurd (List.isEmpty_iff.1 h) hne
        · rw [hrw]
          exact ih.2 r hr' hne
    · have hrw : analyze_query_patterns (a :: l)
          = ⟨truncate200 a.query, a.calls, a.avg_ms, rowAnalysis a⟩ :: analyze_query_patterns l := by
        simp [analyze_query_patterns, h]
      refine ⟨?_, ?_⟩
      · rw [hrw, List.map_cons, List.map_cons]
        exact ih.1.cons₂ (truncate200 a.query)
      · intro r hr hne
        rcases List.mem_cons.1 hr with rfl | hr'
        · exact ⟨_, by rw [hrw]; exact List.mem_cons_self _ _, rfl, rfl, rfl⟩
        · obtain ⟨s, hs, h1, h2, h3⟩ := ih.2 r hr' hne
          exact ⟨s, by rw [hrw]; exact List.mem_cons_of_mem _ hs, h1, h2, h3⟩

/-- C9 witness: a one-row snapshot whose row triggers two rules (ORDER BY
without LIMIT, and OR via the OR in ORDER) yields an entry carrying both
findings. -/
theorem findings_in_row_order_witness :
    rowAnalysis rowCalls11 ≠ []
    ∧ rowAnalysis rowCalls11 = [msgOrderByNoLimit, msgOrConditions]
    ∧ ∃ s ∈ analyze_query_patterns [rowCalls11],
        s.query = truncate200 rowCalls11.query ∧ s.calls = rowCalls11.calls
          ∧ s.suggestions = rowAnalysis rowCalls11 := by
  refine ⟨by decide, by decide, ?_⟩
  exact (findings_in_row_order [rowCalls11]).2 rowCalls11 (List.mem_singleton.2 rfl) (by decide)

/-- Recognizer for rendered query-pattern finding entries. -/
def isQuerySugFrag : Frag → Bool
  | .querySug _ _ => true
  | _ => false

/-- Recognizer for rendered table finding entries. -/
def isTableSugFrag : Frag → Bool
  | .tableSug _ => true
  | _ => false

theorem countP_qsug_section1 (cfg : Config) (q : Option (Except String (List QueryRow))) :
    (section1 cfg q).countP isQuerySugFrag ≤ 10 := by
  match q with
  | none => simp [section1, List.countP_cons, isQuerySugFrag]
  | some (.error e) => simp [section1, List.countP_cons, isQuerySugFrag]
  | some (.ok df) =>
    by_cases hdf : df.isEmpty
    · simp [section1, hdf, List.countP_cons, isQuerySugFrag]
    · by_cases hs : (analyze_query_patterns df).isEmpty
      · simp [section1, hdf, hs, List.countP_cons, List.countP_append, isQuerySugFrag]
      · simp [section1, hdf, hs, List.countP_cons, List.countP_append, List.countP_map,
          Function.comp, isQuerySugFrag, List.countP_true, List.enum_length, List.length_take]
        have h1 : List.countP (isQuerySugFrag ∘ fun p => Frag.querySug (p.1 + 1) p.2)
            ((analyze_query_patterns df).take 10).enum
            = ((analyze_query_patterns df).take 10).enum.length :=
          List.countP_eq_length.2 fun a _ => rfl
        have h2 : ((analyze_query_patterns df).take 10).enum.length ≤ 10 := by
          rw [List.enum_length, List.length_take]
          omega
        omega

theorem countP_tsug_section1 (cfg : Config) (q : Option (Except String (List QueryRow))) :
    (section1 cfg q).countP isTableSugFrag = 0 := by
  match q with
  | none => simp [section1, List.countP_cons, isTableSugFrag]
  | some (.error e) => simp [section1, List.countP_cons, isTableSugFrag]
  | some (.ok df) =>
    by_cases hdf : df.isEmpty
    · simp [section1, hdf, List.countP_cons, isTableSugFrag]
    · by_cases hs : (analyze_query_patterns df).isEmpty
      · simp [section1, hdf, hs, List.countP_cons, List.countP_append, isTableSugFrag]
      · simp [section1, hdf, hs, List.countP_cons, List.countP_append, List.countP_map,
          List.countP_eq_zero, Function.comp, isTableSugFrag]

theorem countP_tsug_section3T (t : Option (Except String TableFrame)) :
    (section3T t).countP isTableSugFrag ≤ 5 := by
  match t with
  | none => simp [section3T, List.countP_cons, isTableSugFrag]
  | some (.error e) => simp [section3T, List.countP_cons, isTableSugFrag]
  | some (.ok tf) =>
    by_cases hdf : tf.rows.isEmpty
    · simp [section3T, hdf, List.countP_cons, isTableSugFrag]
    · by_cases hs : (analyze_table_sizes tf).isEmpty
      · simp [section3T, hdf, hs, List.countP_cons, List.countP_append, isTableSugFrag]
      · simp [section3T, hdf, hs, List.countP_cons, List.countP_append, List.countP_map,
          Function.comp, isTableSugFrag, List.countP_true, List.length_take]
        have h1 := List.countP_le_length (p := isTableSugFrag)
          (l := List.take 5 (List.map Frag.tableSug (analyze_table_sizes tf)))
        have h2 : (List.take 5 (List.map Frag.tableSug (analyze_table_sizes tf))).length ≤ 5 := by
          rw [List.length_take]
          omega
        omega

theorem countP_qsug_section3T (t : Option (Except String TableFrame)) :
    (section3T t).countP isQuerySugFrag = 0 := by
  match t with
  | none => simp [section3T, List.countP_cons, isQuerySugFrag]
  | some (.error e) => simp [section3T, List.countP_cons, isQuerySugFrag]
  | some (.ok tf) =>
    by_cases hdf : tf.rows.isEmpty
    · simp [section3T, hdf, List.countP_cons, isQuerySugFrag]
    · by_cases hs : (analyze_table_sizes tf).isEmpty
      · simp [section3T, hdf, hs, List.countP_cons, List.countP_append, isQuerySugFrag]
      · simp [section3T, hdf, hs, List.countP_cons, List.countP_append, List.countP_eq_zero]
        refine ⟨⟨⟨⟨fun a ha => ?_, rfl⟩, rfl⟩, rfl⟩, rfl⟩
        obtain ⟨b, -, rfl⟩ := List.mem_map.1 (List.take_subset _ _ ha)
        rfl

theorem countP_sug_rest (d : Option (Except String DbStatsFrame))
    (b : Option (Except String (List (List String))))
    (c : Option (Except String (List ConnRow))) (k : Option (Except String (List LockRow)))
    (t : Option (Except String TableFrame)) (p : Frag → Bool)
    (hp1 : ∀ s, p (.text s) = false) (hp2 : ∀ q, p (.cacheRatioLine q) = false)
    (hp3 : ∀ q, p (.dbSizeLine q) = false) (hp4 : ∀ rs, p (.bgTable rs) = false)
    (hp5 : ∀ x y z, p (.connCounts x y z) = false) (hp6 : ∀ rs, p (.connTable rs) = false)
    (hp7 : ∀ x y z, p (.lockCounts x y z) = false) (hp8 : ∀ rs, p (.lockTable rs) = false)
    (hp9 : ∀ rs, p (.rawSizeTable rs) = false) :
    (section4R d).countP p = 0 ∧ (section4B b).countP p = 0
      ∧ (sectionConn c).countP p = 0 ∧ (sectionLock k).countP p = 0
      ∧ (section5 t).countP p = 0 := by
  refine ⟨?_, ?_, ?_, ?_, ?_⟩
  · match d with
    | none => simp [section4R, List.countP_cons, hp1]
    | some (.error e) => simp [section4R, List.countP_cons, List.countP_append, hp1]
    | some (.ok df) =>
      by_cases h0 : df.nrows = 0
      · simp [section4R, h0, List.countP_cons, List.countP_append, hp1]
      · by_cases hr : df.cache_hit_ratio = none
        · by_cases hm : df.database_size_mb = none
          · simp [section4R, h0, hr, hm, List.countP_cons, List.countP_append, hp1]
          · obtain ⟨v, hv⟩ := Option.ne_none_iff_exists'.1 hm
            simp [section4R, h0, hr, hv, List.countP_cons, List.countP_append, hp1, hp3]
        · obtain ⟨v, hv⟩ := Option.ne_none_iff_exists'.1 hr
          by_cases hlt : v < 90
          · by_cases hm : df.database_size_mb = none
            · simp [section4R, h0, hv, hlt, hm, List.countP_cons, List.countP_append, hp1, hp2]
            · obtain ⟨w, hw⟩ := Option.ne_none_iff_exists'.1 hm
              simp [section4R, h0, hv, hlt, hw, List.countP_cons, List.countP_append,
                hp1, hp2, hp3]
          · by_cases hm : df.database_size_mb = none
            · simp [section4R, h0, hv, hlt, hm, List.countP_cons, List.countP_append, hp1, hp2]
            · obtain ⟨w, hw⟩ := Option.ne_none_iff_exists'.1 hm
              simp [section4R, h0, hv, hlt, hw, List.countP_cons, List.countP_append,
                hp1, hp2, hp3]
  · match b with
    | none => simp [section4B, List.countP_cons, hp1]
    | some (.error e) => simp [section4B, List.countP_cons, hp1]
    | some (.ok rows) =>
      by_cases h0 : rows.isEmpty
      · simp [section4B, h0, List.countP_cons, hp1]
      · simp [section4B, h0, List.countP_cons, hp1, hp4]
  · match c with
    | none => simp [sectionConn, List.countP_cons, hp1]
    | some (.error e) => simp [sectionConn, List.countP_cons, hp1]
    | some (.ok rows) =>
      by_cases h0 : rows.isEmpty
      · simp [sectionConn, h0, List.countP_cons, hp1]
      · simp [sectionConn, h0, List.countP_cons, hp1, hp5, hp6]
  · match k with
    | none => simp [sectionLock, List.countP_cons, hp1]
    | some (.error e) => simp [sectionLock, List.countP_cons, hp1]
    | some (.ok rows) =>
      by_cases h0 : rows.isEmpty
      · simp [sectionLock, h0, List.countP_cons, hp1]
      · by_cases hw : (rows.filter fun r => !r.granted).isEmpty
        · simp [sectionLock, h0, hw, List.countP_cons, List.countP_append, hp1, hp7]
        · simp [sectionLock, h0, hw, List.countP_cons, List.countP_append, hp1, hp7, hp8]
  · match t with
    | none => simp [section5, List.countP_cons, hp1]
    | some (.error e) => simp [section5, List.countP_cons, hp1]
    | some (.ok tf) =>
      by_cases h0 : tf.rows.isEmpty
      · simp [section5, h0, List.countP_cons, hp1]
      · simp [section5, h0, List.countP_cons, hp1, hp9]

/-- C10: no rendered report holds more than 10 query-pattern finding
entries or more than 5 table finding entries, whatever the Rule Engine
produced (source lines 122 and 157 slice the finding lists). -/
theorem report_caps_findings (ts : String) (cfg : Config) (env : Env) :
    (generate_report ts cfg env).countP isQuerySugFrag ≤ 10
    ∧ (generate_report ts cfg env).countP isTableSugFrag ≤ 5 := by
  have hq := countP_sug_rest env.db env.bg env.conn env.lock env.tables isQuerySugFrag
    (fun _ => rfl) (fun _ => rfl) (fun _ => rfl) (fun _ => rfl) (fun _ _ _ => rfl)
    (fun _ => rfl) (fun _ _ _ => rfl) (fun _ => rfl) (fun _ => rfl)
  have ht := countP_sug_rest env.db env.bg env.conn env.lock env.tables isTableSugFrag
    (fun _ => rfl) (fun _ => rfl) (fun _ => rfl) (fun _ => rfl) (fun _ _ _ => rfl)
    (fun _ => rfl) (fun _ _ _ => rfl) (fun _ => rfl) (fun _ => rfl)
  constructor
  · have h1 := countP_qsug_section1 cfg env.query
    simp [generate_report, List.countP_append, List.countP_cons, isQuerySugFrag,
      hq.1, hq.2.1, hq.2.2.1, hq.2.2.2.1, hq.2.2.2.2, countP_qsug_section3T env.tables]
    omega
  · have h1 := countP_tsug_section1 cfg env.query
    simp [generate_report, List.countP_append, List.countP_cons, isTableSugFrag,
      ht.1, ht.2.1, ht.2.2.1, ht.2.2.2.1, ht.2.2.2.2, countP_tsug_section1 cfg env.query]
    have h2 := countP_tsug_section3T env.tables
    omega

/-- The run whose only snapshot is a database-stats frame. -/
def dbOnlyEnv (df : DbStatsFrame) : Env := ⟨none, none, some (.ok df), none, none, none⟩

/-- C8: for every non-empty database-stats snapshot carrying a
`cache_hit_ratio` column, the report contains the low-ratio advisory
exactly when the ratio is strictly below 90 and the good marker exactly
when it is 90 or above. -/
theorem cache_ratio_threshold (cfg : Config) (df : DbStatsFrame) (ratio : ℚ)
    (h0 : df.nrows ≠ 0) (hc : df.cache_hit_ratio = some ratio) :
    ((Frag.text lowCacheNote ∈ generate_report "T" cfg (dbOnlyEnv df)) ↔ ratio < 90)
    ∧ ((Frag.text goodCacheNote ∈ generate_report "T" cfg (dbOnlyEnv df)) ↔ 90 ≤ ratio) := by
  by_cases hr : ratio < 90
  · cases hm : df.database_size_mb <;>
      simp [generate_report, dbOnlyEnv, section1, section3T, section4R, section4B,
        sectionConn, sectionLock, section5, h0, hc, hm, hr, not_le.2 hr,
        lowCacheNote, goodCacheNote]
  · cases hm : df.database_size_mb <;>
      simp [generate_report, dbOnlyEnv, section1, section3T, section4R, section4B,
        sectionConn, sectionLock, section5, h0, hc, hm, hr, not_lt.1 hr,
        lowCacheNote, goodCacheNote]

/-- A database-stats frame with cache hit ratio 89.99. -/
def dfRatioLow : DbStatsFrame := ⟨1, some (Rat.divInt 8999 100), none⟩

/-- A database-stats frame with cache hit ratio exactly 90. -/
def dfRatioHigh : DbStatsFrame := ⟨1, some 90, none⟩

/-- C8 witness: the boundary — 89.99 draws the low-ratio advisory,
exactly 90.00 draws the good marker. -/
theorem cache_ratio_threshold_witness :
    (Frag.text lowCacheNote ∈ generate_report "T" cfgD (dbOnlyEnv dfRatioLow))
    ∧ (Frag.text goodCacheNote ∈ generate_report "T" cfgD (dbOnlyEnv dfRatioHigh)) := by
  constructor
  · exact (cache_ratio_threshold cfgD dfRatioLow (Rat.divInt 8999 100)
      (by decide) rfl).1.2 (by decide)
  · exact (cache_ratio_threshold cfgD dfRatioHigh 90 (by decide) rfl).2.2 (by decide)

/-- The two descending sort relations of the Largest Tables ranking agree:
comparing the derived megabyte column is comparing the raw byte counts
(division by the positive constant 1024 * 1024 preserves order). -/
theorem mb_rel_eq_bytes_rel :
    (fun (a b : TableRow) => tableSizeMb b ≤ tableSizeMb a)
      = fun a b => b.total_size_bytes ≤ a.total_size_bytes := by
  funext a b
  simp only [eq_iff_iff, tableSizeMb_eq]
  rw [div_le_div_iff_of_pos_right (by norm_num : (0:ℚ) < 1024 * 1024)]
  exact Int.cast_le

/-- C3: the Largest Tables ranking of the report is the stable descending
sort of the rows by the raw byte count (truncated to 10), with the
displayed size the byte count divided by 1,048,576 — it is never derived
from a pre-formatted size string (none is ever consulted: the sort key and
the displayed value are both computed from `total_size_bytes`). -/
theorem largest_tables_ranked_by_bytes (ts : String) (cfg : Config) (env : Env)
    (tf : TableFrame) (henv : env.tables = some (.ok tf)) (hne : ¬tf.rows.isEmpty = true) :
    Frag.largestTables
        (((tf.rows.insertionSort fun a b => b.total_size_bytes ≤ a.total_size_bytes).take 10).map
          fun r => (r.schema_name, r.table_name, (r.total_size_bytes : ℚ) / (1024 * 1024)))
      ∈ generate_report ts cfg env := by
  have hkey : nlargestBy 10 tableSizeMb tf.rows
      = (tf.rows.insertionSort fun a b => b.total_size_bytes ≤ a.total_size_bytes).take 10 := by
    rw [nlargestBy]
    simp only [mb_rel_eq_bytes_rel]
  have hval : (fun r : TableRow => (r.schema_name, r.table_name, tableSizeMb r))
      = fun r => (r.schema_name, r.table_name, (r.total_size_bytes : ℚ) / (1024 * 1024)) := by
    funext r
    rw [tableSizeMb_eq]
  simp [generate_report, section3T, henv, hne, ← hkey, ← hval]

/-- The table-sizes frame of the specification's concrete ranking example:
byte sizes 52428800, 209715200 and 1048576. -/
def tfBytes : TableFrame :=
  ⟨[⟨"public", "t1", 52428800, "t1_pkey", 1⟩,
    ⟨"public", "t2", 209715200, "t2_pkey", 1⟩,
    ⟨"public", "t3", 1048576, "t3_pkey", 1⟩], false⟩

/-- The run whose only snapshot is `tfBytes`. -/
def envBytes : Env := ⟨none, some (.ok tfBytes), none, none, none, none⟩

/-- C3 witness: for byte sizes [52428800, 209715200, 1048576] the ranked
order is [209715200, 52428800, 1048576] (megabytes 200, 50, 1), and that
ranking is what the report renders. -/
theorem largest_tables_ranked_by_bytes_witness :
    (((tfBytes.rows.insertionSort fun a b => b.total_size_bytes ≤ a.total_size_bytes).take 10).map
        TableRow.total_size_bytes = [209715200, 52428800, 1048576])
    ∧ Frag.largestTables [("public", "t2", (200 : ℚ)), ("public", "t1", (50 : ℚ)),
        ("public", "t3", (1 : ℚ))] ∈ generate_report "T" cfgD envBytes := by
  refine ⟨by decide, ?_⟩
  have h := largest_tables_ranked_by_bytes "T" cfgD envBytes tfBytes rfl (by decide)
  have e : (((tfBytes.rows.insertionSort
        fun a b => b.total_size_bytes ≤ a.total_size_bytes).take 10).map
          fun r => (r.schema_name, r.table_name, tableSizeMb r))
      = [("public", "t2", (200 : ℚ)), ("public", "t1", (50 : ℚ)), ("public", "t3", (1 : ℚ))] := by
    decide
  rw [show (fun r : TableRow => (r.schema_name, r.table_name, tableSizeMb r))
      = fun r => (r.schema_name, r.table_name, (r.total_size_bytes : ℚ) / (1024 * 1024)) from
    by funext r; rw [tableSizeMb_eq]] at e
  rw [e] at h
  exact h

/-- Recognizer for the rendered Top-N query table fragment. -/
def isQueryTableFrag : Frag → Bool
  | .queryTable _ => true
  | _ => false

/-- A minimal query row carrying a given total execution time. -/
def mkTotalRow (t : ℚ) : QueryRow := ⟨"q", 1, t, 1, 1, 1⟩

/-- A 15-row query snapshot whose totals ascend 1..15 — pairwise
distinct, but not in the collector's descending order. -/
def dfAscending : List QueryRow :=
  [mkTotalRow 1, mkTotalRow 2, mkTotalRow 3, mkTotalRow 4, mkTotalRow 5,
   mkTotalRow 6, mkTotalRow 7, mkTotalRow 8, mkTotalRow 9, mkTotalRow 10,
   mkTotalRow 11, mkTotalRow 12, mkTotalRow 13, mkTotalRow 14, mkTotalRow 15]

/-- The run whose only snapshot is `dfAscending`. -/
def envAscending : Env := ⟨some (.ok dfAscending), none, none, none, none, none⟩

/-- C2 counterexample: on a 15-row snapshot with pairwise-distinct totals
1..15 stored in ascending order, with `top_n_queries = 10`, the one
rendered Top-N table holds the FIRST 10 rows (totals 1..10) — `head`, not
a sort — so the snapshot's highest-total row (15) is absent and the rows
are not in descending total order. -/
theorem topN_takes_head_not_sorted :
    ((generate_report "T" cfgD envAscending).filter isQueryTableFrag
      = [Frag.queryTable ((dfAscending.take 10).map displayRow)])
    ∧ ((dfAscending.take 10).map QueryRow.total_ms = [1, 2, 3, 4, 5, 6, 7, 8, 9, 10])
    ∧ (dfAscending.map QueryRow.total_ms
      = [1, 2, 3, 4, 5, 6, 7, 8, 9, 10, 11, 12, 13, 14, 15])
    ∧ (15 : ℚ) ∉ (dfAscending.take 10).map QueryRow.total_ms := by
  exact ⟨by decide, by decide, by decide, by decide⟩

/-- C2 amended: when the 15-row snapshot is already sorted by strictly
descending total execution time (the collector's order, with
pairwise-distinct totals) and `top_n_queries = 10`, the rendered Top-N
table holds exactly the 10 highest-total rows, in descending order: it
shows the first 10 rows, they are pairwise descending, and every row left
out has a strictly smaller total than every row shown. -/
theorem topN_of_descending_snapshot (ts : String) (cfg : Config) (env : Env)
    (df : List QueryRow) (hn : cfg.top_n_queries = 10) (henv : env.query = some (.ok df))
    (hlen : df.length = 15) (hsort : df.Pairwise fun a b => b.total_ms < a.total_ms) :
    Frag.queryTable ((df.take 10).map displayRow) ∈ generate_report ts cfg env
    ∧ (df.take 10).length = 10
    ∧ ((df.take 10).Pairwise fun a b => b.total_ms < a.total_ms)
    ∧ ∀ a ∈ df.take 10, ∀ b ∈ df.drop 10, b.total_ms < a.total_ms := by
  have hne : ¬df.isEmpty = true := by
    cases df
    · simp at hlen
    · simp
  refine ⟨?_, ?_, ?_, ?_⟩
  · simp [generate_report, section1, henv, hne, hn]
  · rw [List.length_take, hlen]
    omega
  · exact hsort.sublist (List.take_sublist 10 df)
  · have h2 : (df.take 10 ++ df.drop 10).Pairwise fun a b => b.total_ms < a.total_ms := by
      rw [List.take_append_drop]
      exact hsort
    exact (List.pairwise_append.1 h2).2.2

/-- A 15-row query snapshot with strictly descending totals 15..1. -/
def dfDescending : List QueryRow :=
  [mkTotalRow 15, mkTotalRow 14, mkTotalRow 13, mkTotalRow 12, mkTotalRow 11,
   mkTotalRow 10, mkTotalRow 9, mkTotalRow 8, mkTotalRow 7, mkTotalRow 6,
   mkTotalRow 5, mkTotalRow 4, mkTotalRow 3, mkTotalRow 2, mkTotalRow 1]

/-- The run whose only snapshot is `dfDescending`. -/
def envDescending : Env := ⟨some (.ok dfDescending), none, none, none, none, none⟩

/-- C2 witness: the amended statement at the concrete descending
15-row snapshot. -/
theorem topN_of_descending_snapshot_witness :
    dfDescending.length = 15
    ∧ (dfDescending.Pairwise fun a b => b.total_ms < a.total_ms)
    ∧ Frag.queryTable ((dfDescending.take 10).map displayRow)
        ∈ generate_report "T" cfgD envDescending
    ∧ ((dfDescending.take 10).map QueryRow.total_ms
        = [15, 14, 13, 12, 11, 10, 9, 8, 7, 6]) := by
  refine ⟨by decide, by decide, ?_, by decide⟩
  exact (topN_of_descending_snapshot "T" cfgD envDescending dfDescending rfl rfl
    (by decide) (by decide)).1

/-- Does a fragment's literally written text contain `s`?  Non-text
fragments never do. -/
def fragHasStr (f : Frag) (s : String) : Bool :=
  match f with
  | .text t => strContains t s
  | _ => false

/-- The run whose only snapshot is a malformed query-stats file. -/
def envQueryBad : Env := ⟨some (.error "bad"), none, none, none, none, none⟩

/-- The run whose only snapshot is the one-row query frame
`[rowCalls11]`. -/
def envQueryOk : Env := ⟨some (.ok [rowCalls11]), none, none, none, none, none⟩

/-- C4 counterexample: a malformed query-statistics snapshot yields the
inline error note, but the subsequent Optimization Recommendations section
(rendered on a well-formed run) is skipped along with it — not every
subsequent section continues to render. -/
theorem malformed_query_skips_recommendations :
    (Frag.text "Error processing query stats: bad\n\n" ∈ generate_report "T" cfgD envQueryBad)
    ∧ ((generate_report "T" cfgD envQueryBad).all
        fun f => !(fragHasStr f "## 2. Optimization Recommendations"))
    ∧ ((generate_report "T" cfgD envQueryOk).any
        fun f => fragHasStr f "## 2. Optimization Recommendations") := by
  exact ⟨by decide, by decide, by decide⟩

/-- C4 amended: an exception inside a section's try block is caught at
that section's boundary: the inline error note carrying the cause is
written into the section, and every later top-level section still renders
(the unconditional headings of the last conjunct).  The two deviations the
source forces: the Optimization Recommendations block lives inside the
query-statistics guard and is skipped when that snapshot fails, and the
table-sizes snapshot is consumed by two sections (Table Analysis, Table
and Index Sizes), each of which writes its own error note. -/
theorem section_error_confined (ts : String) (cfg : Config) (env : Env) (e : String) :
    (env.query = some (.error e) →
      Frag.text ("Error processing query stats: " ++ e ++ "\n\n") ∈ generate_report ts cfg env)
    ∧ (env.tables = some (.error e) →
      Frag.text ("Error processing table sizes: " ++ e ++ "\n") ∈ generate_report ts cfg env
      ∧ Frag.text ("Error processing table sizes: " ++ e ++ "\n\n") ∈ generate_report ts cfg env)
    ∧ (env.db = some (.error e) →
      Frag.text ("Error processing DB stats: " ++ e ++ "\n\n") ∈ generate_report ts cfg env)
    ∧ (env.bg = some (.error e) →
      Frag.text ("Error processing BGWriter stats: " ++ e ++ "\n\n") ∈ generate_report ts cfg env)
    ∧ (env.conn = some (.error e) →
      Frag.text ("Error processing connection info: " ++ e ++ "\n\n") ∈ generate_report ts cfg env)
    ∧ (env.lock = some (.error e) →
      Frag.text ("Error processing lock info: " ++ e ++ "\n\n") ∈ generate_report ts cfg env)
    ∧ (Frag.text "## 3. Table Analysis\n\n" ∈ generate_report ts cfg env
      ∧ Frag.text "\n## 4. Resource Usage Analysis\n\n" ∈ generate_report ts cfg env
      ∧ Frag.text "## 3. Connection Information\n\n" ∈ generate_report ts cfg env
      ∧ Frag.text "## 4. Lock Information\n\n" ∈ generate_report ts cfg env
      ∧ Frag.text "## 5. Table and Index Sizes\n\n" ∈ generate_report ts cfg env) := by
  refine ⟨fun h => ?_, fun h => ⟨?_, ?_⟩, fun h => ?_, fun h => ?_, fun h => ?_, fun h => ?_,
    ?_, ?_, ?_, ?_, ?_⟩
  · simp [generate_report, section1, h]
  · simp [generate_report, section3T, h]
  · simp [generate_report, section5, h]
  · simp [generate_report, section4R, h]
  · simp [generate_report, section4B, h]
  · simp [generate_report, sectionConn, h]
  · simp [generate_report, sectionLock, h]
  · simp [generate_report, section3T]
  · simp [generate_report, section4R]
  · simp [generate_report, sectionConn]
  · simp [generate_report, sectionLock]
  · simp [generate_report, section5]

/-- The run in which every category's snapshot raises with message
`boom`. -/
def envAllBad : Env :=
  ⟨some (.error "boom"), some (.error "boom"), some (.error "boom"),
   some (.error "boom"), some (.error "boom"), some (.error "boom")⟩

/-- C4 witness: with every snapshot malformed, the first and the last
sections' error notes are both rendered (applying the amended theorem at
the concrete run). -/
theorem section_error_confined_witness :
    Frag.text "Error processing query stats: boom\n\n" ∈ generate_report "T" cfgD envAllBad
    ∧ Frag.text "Error processing lock info: boom\n\n" ∈ generate_report "T" cfgD envAllBad := by
  have h := section_error_confined "T" cfgD envAllBad "boom"
  constructor
  · have e : "Error processing query stats: " ++ "boom" ++ "\n\n"
        = "Error processing query stats: boom\n\n" := by decide
    exact e ▸ h.1 rfl
  · have e : "Error processing lock info: " ++ "boom" ++ "\n\n"
        = "Error processing lock info: boom\n\n" := by decide
    exact e ▸ h.2.2.2.2.2.1 rfl

/-- C1 counterexample: on the zero-snapshot run no fragment mentions the
Optimization Recommendations section and none carries the
database-statistics no-data notice, while the section does appear on a run
with query data — the section sequence varies with the present categories
and not every absent category gets its notice. -/
theorem empty_run_incomplete_sections :
    ((generate_report "T" cfgD emptyEnv).all
      fun f => !(fragHasStr f "## 2. Optimization Recommendations"))
    ∧ ((generate_report "T" cfgD emptyEnv).all
      fun f => !(fragHasStr f "No database statistics data found"))
    ∧ ((generate_report "T" cfgD envQueryOk).any
      fun f => fragHasStr f "## 2. Optimization Recommendations") := by
  exact ⟨by decide, by decide, by decide⟩

/-- C1 amended: the six top-level section headings are rendered in fixed
order on every run whatever snapshots exist — they form an
order-preserving sublist of the output fragment list — and the
zero-snapshot run produces exactly the fixed document below, complete and
exception-free, with a no-data notice in each section except the two the
source omits: the Optimization Recommendations section (only rendered
inside a successful query-stats section) and the database-statistics
notice (its no-file branch writes nothing). -/
theorem fixed_sections_and_empty_run (ts : String) (cfg : Config) (env : Env) :
    (∃ rest, List.Sublist
        [Frag.text ("## 1. Query Performance Analysis\n\n" ++ rest),
         Frag.text "## 3. Table Analysis\n\n",
         Frag.text "\n## 4. Resource Usage Analysis\n\n",
         Frag.text "## 3. Connection Information\n\n",
         Frag.text "## 4. Lock Information\n\n",
         Frag.text "## 5. Table and Index Sizes\n\n"]
        (generate_report ts cfg env))
    ∧ generate_report "T" cfgD emptyEnv =
      [.text "# PostgreSQL Performance Analysis Report - T\n\n",
       .text "This report provides performance metrics and optimization suggestions for your PostgreSQL database.\n\n",
       .text "## 1. Query Performance Analysis\n\nNo query statistics data found.\n\n",
       .text "## 3. Table Analysis\n\n",
       .text "No table size data files found.\n",
       .text "\n## 4. Resource Usage Analysis\n\n",
       .text "No background writer statistics data found.\n\n",
       .text "## 3. Connection Information\n\n",
       .text "No connection information found.\n\n",
       .text "## 4. Lock Information\n\n",
       .text "No lock information found.\n\n",
       .text "## 5. Table and Index Sizes\n\n",
       .text "No table size information found.\n\n",
       .text "\n---\n*End of Report*"] := by
  constructor
  · obtain ⟨rest, hs1⟩ : ∃ rest,
        List.Sublist [Frag.text ("## 1. Query Performance Analysis\n\n" ++ rest)]
          (section1 cfg env.query) := by
      match hq : env.query with
      | none =>
        refine ⟨"No query statistics data found.\n\n", ?_⟩
        rw [show "## 1. Query Performance Analysis\n\n"
              ++ "No query statistics data found.\n\n"
            = "## 1. Query Performance Analysis\n\nNo query statistics data found.\n\n"
            from by decide]
        exact List.Sublist.refl _
      | some (.error e) =>
        refine ⟨"", ?_⟩
        rw [show "## 1. Query Performance Analysis\n\n" ++ ""
            = "## 1. Query Performance Analysis\n\n" from by decide]
        exact (List.nil_sublist _).cons₂ _
      | some (.ok df) =>
        refine ⟨"", ?_⟩
        rw [show "## 1. Query Performance Analysis\n\n" ++ ""
            = "## 1. Query Performance Analysis\n\n" from by decide]
        exact (List.nil_sublist _).cons₂ _
    refine ⟨rest, ?_⟩
    exact ((((((((List.nil_sublist _).append hs1).append
        ((List.nil_sublist _).cons₂ _)).append
        ((List.nil_sublist _).cons₂ _)).append
        (List.nil_sublist _)).append
        ((List.nil_sublist _).cons₂ _)).append
        ((List.nil_sublist _).cons₂ _)).append
        ((List.nil_sublist _).cons₂ _)).append
        (List.nil_sublist _)
  · decide
